import Mathlib

/-!
# SPECTRE protocol: formal model of the trading core

Shallow embedding of the SPECTRE Solana program
(`programs/spectre_protocol/src`): the mock constant-product prediction
market (`cpi/pnp_interface.rs`), the vault / position ledger
(`state/mod.rs`, `lib.rs`) and the trading orchestrator (`lib.rs`).

Machine integers are modelled as `Nat` (for `u64`/`u32`/`u128`) and `Int`
(for `i64`), with the Rust semantics made explicit:
* `wrap64` models release-mode wrapping of plain `u64` arithmetic and of
  `as u64` casts of `u128` values;
* `satAdd64`, `satMul64` and `Nat` subtraction model `saturating_add`,
  `saturating_mul` and `saturating_sub`;
* `checkedAdd64` models `checked_add`;
* `satSubI64` and `u64AsI64` model `i64::saturating_sub` and `as i64`.
Fallible instructions return `Except SpectreError`.
-/

/-! ## Fixed-width integer semantics -/

/-- `2 ^ 64`, the modulus of `u64` arithmetic. -/
def U64LIM : Nat := 18446744073709551616

/-- `u64::MAX`. -/
def U64MAX : Nat := 18446744073709551615

/-- `u32::MAX`. -/
def U32MAX : Nat := 4294967295

/-- `i64::MAX`. -/
def I64MAXi : Int := 9223372036854775807

/-- `i64::MIN`. -/
def I64MINi : Int := -9223372036854775808

/-- Wrapping `u64` arithmetic (release-mode overflow) and `as u64` casts. -/
def wrap64 (a : Nat) : Nat := a % U64LIM

/-- `u64::saturating_add`. -/
def satAdd64 (a b : Nat) : Nat := min (a + b) U64MAX

/-- `u64::saturating_mul`. -/
def satMul64 (a b : Nat) : Nat := min (a * b) U64MAX

/-- `u32::saturating_add`. -/
def satAdd32 (a b : Nat) : Nat := min (a + b) U32MAX

/-- Wrapping `u64` subtraction `a - b` for `a b < 2^64`. -/
def sub64 (a b : Nat) : Nat := (a + U64LIM - b) % U64LIM

/-- `u64::checked_add`: `none` on overflow. -/
def checkedAdd64 (a b : Nat) : Option Nat :=
  if a + b ≤ U64MAX then some (a + b) else none

/-- `i64::saturating_sub`. -/
def satSubI64 (a b : Int) : Int := max I64MINi (min I64MAXi (a - b))

/-- Reinterpretation cast `u64 as i64` (two's complement). -/
def u64AsI64 (x : Nat) : Int :=
  if x < 9223372036854775808 then (x : Int) else (x : Int) - 18446744073709551616

/-! ## Trading constants (`cpi/pnp_interface.rs`) -/

/-- Minimum trade amount in lamports (0.001 SOL). -/
def MIN_TRADE_AMOUNT : Nat := 1000000

/-- Maximum trade amount in lamports (1000 SOL). -/
def MAX_TRADE_AMOUNT : Nat := 1000000000000

/-- Price scaling factor (1e6 = 100%). -/
def PRICE_SCALE : Nat := 1000000

/-- Maximum slippage allowed for market orders (5%). -/
def MAX_SLIPPAGE_BPS : Nat := 500

/-! ## Trade side, order type, params and result (`cpi/pnp_interface.rs`) -/

/-- Side of the trade on a prediction market. -/
inductive TradeSide where
  | Yes
  | No
deriving DecidableEq, Repr

/-- `TradeSide::opposite`. -/
def TradeSide.opposite : TradeSide → TradeSide
  | .Yes => .No
  | .No => .Yes

/-- Type of order to place. -/
inductive OrderType where
  | Market
  | Limit
deriving DecidableEq, Repr

/-- Parameters for executing a trade (`TradeParams`). -/
structure TradeParams where
  side : TradeSide
  amount : Nat
  order_type : OrderType
  limit_price : Nat
  max_slippage_bps : Nat
deriving DecidableEq, Repr

/-- `TradeParams::market_order`. -/
def TradeParams.market_order (side : TradeSide) (amount : Nat) : TradeParams :=
  { side := side, amount := amount, order_type := OrderType.Market,
    limit_price := 0, max_slippage_bps := MAX_SLIPPAGE_BPS }

/-- `TradeParams::limit_order`. -/
def TradeParams.limit_order (side : TradeSide) (amount : Nat) (limit_price : Nat) : TradeParams :=
  { side := side, amount := amount, order_type := OrderType.Limit,
    limit_price := limit_price, max_slippage_bps := 0 }

/-- `TradeParams::validate`. -/
def TradeParams.validate (p : TradeParams) : Bool :=
  if p.amount < MIN_TRADE_AMOUNT ∨ p.amount > MAX_TRADE_AMOUNT then false
  else if p.order_type = OrderType.Limit ∧ (p.limit_price = 0 ∨ p.limit_price > PRICE_SCALE) then
    false
  else if p.order_type = OrderType.Market ∧ p.max_slippage_bps > 10000 then false
  else true

/-- Result of a trade execution (`TradeResult`). -/
structure TradeResult where
  success : Bool
  amount_traded : Nat
  shares_received : Nat
  execution_price : Nat
  fees_paid : Nat
deriving DecidableEq, Repr

/-- `TradeResult::failed` (equal to `TradeResult::default`). -/
def TradeResult.failed : TradeResult :=
  { success := false, amount_traded := 0, shares_received := 0,
    execution_price := 0, fees_paid := 0 }

/-- `TradeResult::success`. -/
def TradeResult.mkSuccess (amount_traded shares_received execution_price fees_paid : Nat) :
    TradeResult :=
  { success := true, amount_traded := amount_traded, shares_received := shares_received,
    execution_price := execution_price, fees_paid := fees_paid }

/-! ## Mock market (`MockMarket` in `cpi/pnp_interface.rs`) -/

/-- Mock PNP market state. -/
structure MockMarket where
  yes_reserve : Nat
  no_reserve : Nat
  sol_liquidity : Nat
  total_volume : Nat
  end_time : Int
  is_resolved : Bool
  winning_side : TradeSide
  fee_bps : Nat
deriving DecidableEq, Repr

/-- `MockMarket::default`. -/
def MockMarket.mkDefault : MockMarket :=
  { yes_reserve := 1000000000, no_reserve := 1000000000, sol_liquidity := 2000000000,
    total_volume := 0, end_time := I64MAXi, is_resolved := false,
    winning_side := TradeSide.Yes, fee_bps := 30 }

/-- Reserve of a given side. -/
def MockMarket.reserve (m : MockMarket) : TradeSide → Nat
  | .Yes => m.yes_reserve
  | .No => m.no_reserve

/-- `MockMarket::yes_price`: the `u64` sum of reserves wraps before the
`u128` division; the quotient is cast back `as u64`. -/
def MockMarket.yes_price (m : MockMarket) : Nat :=
  if wrap64 (m.yes_reserve + m.no_reserve) = 0 then PRICE_SCALE / 2
  else wrap64 (m.no_reserve * PRICE_SCALE / wrap64 (m.yes_reserve + m.no_reserve))

/-- `MockMarket::no_price` = `PRICE_SCALE - yes_price()` in `u64`. -/
def MockMarket.no_price (m : MockMarket) : Nat :=
  sub64 PRICE_SCALE m.yes_price

/-- `MockMarket::get_price`. -/
def MockMarket.get_price (m : MockMarket) : TradeSide → Nat
  | .Yes => m.yes_price
  | .No => m.no_price

/-- `MockMarket::calculate_shares_out`: returns `(shares_out, fee)`.
The fee multiplication is plain `u64` arithmetic; `amount_after_fee` and
`shares_out` use `saturating_sub`, `new_reserve_in` uses `saturating_add`,
and the constant product `k` lives in `u128` with the quotient cast
`as u64`. -/
def MockMarket.calculate_shares_out (m : MockMarket) (side : TradeSide) (amount_in : Nat) :
    Nat × Nat :=
  let fee := wrap64 (amount_in * m.fee_bps) / 10000
  let amount_after_fee := amount_in - fee
  let rp := match side with
    | TradeSide.Yes => (m.no_reserve, m.yes_reserve)
    | TradeSide.No => (m.yes_reserve, m.no_reserve)
  let reserve_in := rp.1
  let reserve_out := rp.2
  let k := reserve_in * reserve_out
  let new_reserve_in := satAdd64 reserve_in amount_after_fee
  if new_reserve_in = 0 then (0, fee)
  else
    let new_reserve_out := wrap64 (k / new_reserve_in)
    let shares_out := reserve_out - new_reserve_out
    (shares_out, fee)

/-- `MockMarket::execute_trade`: returns the post-call market and the
`TradeResult`. All failure paths return the market unchanged. -/
def MockMarket.execute_trade (m : MockMarket) (p : TradeParams) : MockMarket × TradeResult :=
  if m.is_resolved then (m, TradeResult.failed)
  else if p.validate = false then (m, TradeResult.failed)
  else
    let so := m.calculate_shares_out p.side p.amount
    let shares_out := so.1
    let fees := so.2
    if shares_out = 0 then (m, TradeResult.failed)
    else
      let execution_price := wrap64 (p.amount * PRICE_SCALE / shares_out)
      if p.order_type = OrderType.Limit ∧ execution_price > p.limit_price then
        (m, TradeResult.failed)
      else
        let amount_after_fee := p.amount - fees
        let m1 := match p.side with
          | TradeSide.Yes =>
            { m with no_reserve := satAdd64 m.no_reserve amount_after_fee,
                     yes_reserve := m.yes_reserve - shares_out }
          | TradeSide.No =>
            { m with yes_reserve := satAdd64 m.yes_reserve amount_after_fee,
                     no_reserve := m.no_reserve - shares_out }
        let m2 := { m1 with total_volume := satAdd64 m1.total_volume p.amount }
        (m2, TradeResult.mkSuccess p.amount shares_out execution_price fees)

/-- `MockMarket::resolve`: unconditionally marks the market resolved with
the given winning side. -/
def MockMarket.resolve (m : MockMarket) (winning_side : TradeSide) : MockMarket :=
  { m with is_resolved := true, winning_side := winning_side }

/-- `MockMarket::calculate_payout`. -/
def MockMarket.calculate_payout (m : MockMarket) (side : TradeSide) (shares : Nat) : Nat :=
  if m.is_resolved = false then 0
  else if side = m.winning_side then shares
  else 0

/-! ## Vault and position ledger (`state/mod.rs`) -/

/-- Errors raised by the instructions modelled here (`SpectreError` in
`lib.rs`, restricted to the variants these instructions can raise). -/
inductive SpectreError where
  | VaultInactive
  | InsufficientVaultBalance
  | InvalidTradeAmount
  | InvalidPrice
  | PositionAlreadyClosed
  | MathOverflow
deriving DecidableEq, Repr

/-- The SPECTRE vault account (`SpectreVault`): the numeric and flag
fields the trading core reads and writes. Account-identity plumbing
(`authority`, PDA bumps, `model_hash`, `created_at`) is omitted: no
instruction modelled here reads or writes it except to copy it. -/
structure SpectreVault where
  total_deposited : Nat
  available_balance : Nat
  active_positions : Nat
  last_trade_slot : Nat
  is_active : Bool
  is_delegated : Bool
  total_deposits_count : Nat
  total_withdrawals_count : Nat
  total_volume : Nat
deriving DecidableEq, Repr

/-- `SpectreVault::has_sufficient_balance`. -/
def SpectreVault.has_sufficient_balance (v : SpectreVault) (amount : Nat) : Bool :=
  amount ≤ v.available_balance

/-- `SpectreVault::calculate_position_size`: 1/20th of the available
balance, doubled (with `saturating_mul`) for strong signals. -/
def SpectreVault.calculate_position_size (v : SpectreVault) (is_strong_signal : Bool) : Nat :=
  let base_size := v.available_balance / 20
  if is_strong_signal then satMul64 base_size 2 else base_size

/-- Position side (`Side` in `state/mod.rs`). -/
inductive Side where
  | Yes
  | No
deriving DecidableEq, Repr

/-- Position status (`PositionStatus`). -/
inductive PositionStatus where
  | Open
  | Closed
  | Liquidated
deriving DecidableEq, Repr

/-- A trading position account (`Position`), minus account-identity
plumbing (`vault`, `market_id`, `bump`). -/
structure Position where
  side : Side
  shares : Nat
  entry_price : Nat
  invested_amount : Nat
  status : PositionStatus
  opened_at : Int
  closed_at : Int
  exit_price : Nat
  realized_pnl : Int
deriving DecidableEq, Repr

/-- `Position::calculate_unrealized_pnl`: `u128` product and division
(saturating, though `shares * price < 2^128` never saturates), cast
`as u64`, then `i64` saturating subtraction. -/
def Position.calculate_unrealized_pnl (p : Position) (current_price : Nat) : Int :=
  if p.status ≠ PositionStatus.Open then 0
  else
    let current_value := wrap64 (p.shares * current_price / 1000000)
    satSubI64 (u64AsI64 current_value) (u64AsI64 p.invested_amount)

/-- Strategy configuration account (`StrategyConfig`), minus
account-identity plumbing (`vault`, `authority`, `bump`, `_reserved`). -/
structure StrategyConfig where
  price_threshold_low : Nat
  price_threshold_high : Nat
  trend_threshold : Nat
  volatility_cap : Nat
  is_active : Bool
  updated_at : Int
  last_signal : Nat
  last_signal_at : Int
  total_signals : Nat
deriving DecidableEq, Repr

/-! ## Signal engine (strategy decision tree)

The `strategy/decision_tree` module is declared and re-exported by
`strategy/mod.rs` and used by `lib.rs` (`run_inference`, `TradeSignal`,
`StrategyParams`, `MarketInput`), but its source file is not part of the
repository snapshot, so the definitions below are modelled from the
specification. -/

/-- Graded trade signal (`TradeSignal`). -/
inductive TradeSignal where
  | StrongBuy
  | Buy
  | Hold
  | Sell
  | StrongSell
deriving DecidableEq, Repr

/-- Buy-class query used by the orchestrator. -/
def TradeSignal.is_buy : TradeSignal → Bool
  | .StrongBuy => true
  | .Buy => true
  | _ => false

/-- Sell-class query used by the orchestrator. -/
def TradeSignal.is_sell : TradeSignal → Bool
  | .Sell => true
  | .StrongSell => true
  | _ => false

/-- Strong-class query used by the orchestrator. -/
def TradeSignal.is_strong : TradeSignal → Bool
  | .StrongBuy => true
  | .StrongSell => true
  | _ => false

/-- Market observation (`MarketInput`): normalized price, signed trend,
non-negative volatility. -/
structure MarketInput where
  price : Nat
  trend : Int
  volatility : Nat
deriving DecidableEq, Repr

/-- Strategy thresholds (`StrategyParams`). -/
structure StrategyParams where
  price_threshold_low : Nat
  price_threshold_high : Nat
  trend_threshold : Nat
  volatility_cap : Nat
deriving DecidableEq, Repr

/-- Modelled from the spec: `run_inference` of the absent
`strategy/decision_tree` module. Volatility above the cap forces `Hold`;
otherwise price at or below the low threshold gives the buy class, price
at or above the high threshold gives the sell class, strictly between
gives `Hold`; within a class the signal is strong exactly when the
absolute trend exceeds `trend_threshold` (the specification's worked
vectors, e.g. price 700000 with trend +150000 giving `StrongSell`, fix
the strength test to the trend's magnitude). -/
def run_inference (input : MarketInput) (params : StrategyParams) : TradeSignal :=
  if input.volatility > params.volatility_cap then TradeSignal.Hold
  else if input.price ≤ params.price_threshold_low then
    (if input.trend.natAbs > params.trend_threshold then TradeSignal.StrongBuy
     else TradeSignal.Buy)
  else if input.price ≥ params.price_threshold_high then
    (if input.trend.natAbs > params.trend_threshold then TradeSignal.StrongSell
     else TradeSignal.Sell)
  else TradeSignal.Hold

/-! ## Instructions (`lib.rs`) -/

/-- Encoding of the last signal stored in `StrategyConfig::last_signal`. -/
def signalCode : TradeSignal → Nat
  | .StrongBuy => 1
  | .Buy => 2
  | .Hold => 3
  | .Sell => 4
  | .StrongSell => 5

/-- The vault-ledger update of the `fund_agent` instruction
(`lib.rs` step 4): three `checked_add`s, each aborting the instruction
with `MathOverflow` on overflow. -/
def fund_agent_update (v : SpectreVault) (amount : Nat) : Except SpectreError SpectreVault :=
  match checkedAdd64 v.total_deposited amount with
  | none => Except.error SpectreError.MathOverflow
  | some td =>
    match checkedAdd64 v.available_balance amount with
    | none => Except.error SpectreError.MathOverflow
    | some ab =>
      match checkedAdd64 v.total_deposits_count 1 with
      | none => Except.error SpectreError.MathOverflow
      | some dc =>
        Except.ok { v with total_deposited := td, available_balance := ab,
                           total_deposits_count := dc }

/-- The `execute_trade` instruction (`lib.rs`): generates a signal,
updates the strategy counters unconditionally, and on an actionable
signal sizes and executes a market order against a fresh
`MockMarket::default`, applying the result to the vault. -/
def execute_trade_ix (v : SpectreVault) (c : StrategyConfig) (input : MarketInput)
    (now : Int) (slot : Nat) :
    Except SpectreError (SpectreVault × StrategyConfig × TradeResult) :=
  if v.is_active = false then Except.error SpectreError.VaultInactive
  else if v.available_balance = 0 then Except.error SpectreError.InsufficientVaultBalance
  else
    let params : StrategyParams :=
      { price_threshold_low := c.price_threshold_low,
        price_threshold_high := c.price_threshold_high,
        trend_threshold := c.trend_threshold,
        volatility_cap := c.volatility_cap }
    let signal := run_inference input params
    let c1 := { c with last_signal := signalCode signal, last_signal_at := now,
                       total_signals := satAdd64 c.total_signals 1 }
    if (signal.is_buy || signal.is_sell) = false then
      Except.ok (v, c1, TradeResult.failed)
    else
      let is_strong := signal.is_strong
      let position_size := v.calculate_position_size is_strong
      if position_size < MIN_TRADE_AMOUNT then
        Except.error SpectreError.InsufficientVaultBalance
      else
        let side := if signal.is_buy then TradeSide.Yes else TradeSide.No
        let trade_params := TradeParams.market_order side position_size
        let mr := MockMarket.execute_trade MockMarket.mkDefault trade_params
        let result := mr.2
        if result.success then
          let v1 := { v with available_balance := v.available_balance - result.amount_traded,
                             total_volume := satAdd64 v.total_volume result.amount_traded,
                             last_trade_slot := slot }
          Except.ok (v1, c1, result)
        else
          Except.ok (v, c1, result)

/-- The `open_position` instruction (`lib.rs`): validates the inputs and
balance, initializes the position, and applies the saturating vault
updates. -/
def open_position_ix (v : SpectreVault) (side : TradeSide) (shares entry_price invested_amount : Nat)
    (now : Int) (slot : Nat) : Except SpectreError (SpectreVault × Position) :=
  if shares = 0 then Except.error SpectreError.InvalidTradeAmount
  else if invested_amount = 0 then Except.error SpectreError.InvalidTradeAmount
  else if entry_price = 0 then Except.error SpectreError.InvalidPrice
  else if v.available_balance < invested_amount then
    Except.error SpectreError.InsufficientVaultBalance
  else
    let position : Position :=
      { side := match side with | TradeSide.Yes => Side.Yes | TradeSide.No => Side.No,
        shares := shares, entry_price := entry_price, invested_amount := invested_amount,
        status := PositionStatus.Open, opened_at := now, closed_at := 0,
        exit_price := 0, realized_pnl := 0 }
    let v1 := { v with available_balance := v.available_balance - invested_amount,
                       active_positions := satAdd32 v.active_positions 1,
                       total_volume := satAdd64 v.total_volume invested_amount,
                       last_trade_slot := slot }
    Except.ok (v1, position)

/-- The `close_position` instruction (`lib.rs`): requires an open
position and a positive exit price, computes the exit value in `u128`
(cast back `as u64`) and the realized PnL by `i64` saturating
subtraction, then applies the saturating vault updates. -/
def close_position_ix (v : SpectreVault) (p : Position) (exit_price : Nat)
    (now : Int) (slot : Nat) : Except SpectreError (SpectreVault × Position × Int) :=
  if p.status ≠ PositionStatus.Open then Except.error SpectreError.PositionAlreadyClosed
  else if exit_price = 0 then Except.error SpectreError.InvalidPrice
  else
    let exit_value := wrap64 (p.shares * exit_price / PRICE_SCALE)
    let realized_pnl := satSubI64 (u64AsI64 exit_value) (u64AsI64 p.invested_amount)
    let p1 := { p with status := PositionStatus.Closed, closed_at := now,
                       exit_price := exit_price, realized_pnl := realized_pnl }
    let v1 := { v with available_balance := satAdd64 v.available_balance exit_value,
                       active_positions := v.active_positions - 1,
                       last_trade_slot := slot }
    Except.ok (v1, p1, realized_pnl)

/-- The `get_position_pnl` instruction (`lib.rs`): stored PnL for
non-open positions, otherwise the unrealized PnL at the given price;
never mutates state. -/
def get_position_pnl_ix (p : Position) (current_price : Nat) : Int :=
  if p.status ≠ PositionStatus.Open then p.realized_pnl
  else p.calculate_unrealized_pnl current_price

/-- Decidable equality for `Except` results, used to evaluate concrete
instruction outcomes. -/
instance {e a : Type} [DecidableEq e] [DecidableEq a] : DecidableEq (Except e a) := by
  intro x y
  cases x with
  | error p =>
    cases y with
    | error q =>
      exact match decEq p q with
        | isTrue h => isTrue (by rw [h])
        | isFalse h => isFalse (fun hc => h (Except.error.inj hc))
    | ok q => exact isFalse (fun hc => Except.noConfusion hc)
  | ok p =>
    cases y with
    | error q => exact isFalse (fun hc => Except.noConfusion hc)
    | ok q =>
      exact match decEq p q with
        | isTrue h => isTrue (by rw [h])
        | isFalse h => isFalse (fun hc => h (Except.ok.inj hc))

/-- Strategy configuration with the specification's thresholds. -/
def exampleConfig : StrategyConfig :=
  { price_threshold_low := 400000, price_threshold_high := 600000, trend_threshold := 100000,
    volatility_cap := 200000, is_active := true, updated_at := 0, last_signal := 0,
    last_signal_at := 0, total_signals := 0 }

/-- Vault used in concrete closing scenarios. -/
def exampleVault : SpectreVault :=
  { total_deposited := 50000000, available_balance := 0, active_positions := 1,
    last_trade_slot := 0, is_active := true, is_delegated := false,
    total_deposits_count := 1, total_withdrawals_count := 0, total_volume := 50000000 }

/-- The specification's worked position: `shares = 100000000`,
`entry_price = 500000`, `invested_amount = 50000000`, open. -/
def examplePosition : Position :=
  { side := Side.Yes, shares := 100000000, entry_price := 500000,
    invested_amount := 50000000, status := PositionStatus.Open,
    opened_at := 0, closed_at := 0, exit_price := 0, realized_pnl := 0 }

/-- Position whose exit value overflows `u64` when closed at a large
price: `shares = 10^19`, `invested_amount = 1`, open. -/
def overflowPosition : Position :=
  { side := Side.Yes, shares := 10000000000000000000, entry_price := 500000,
    invested_amount := 1, status := PositionStatus.Open,
    opened_at := 0, closed_at := 0, exit_price := 0, realized_pnl := 0 }

/-! ## Helper lemmas -/

theorem wrap64_eq_of_lt {a : Nat} (h : a < U64LIM) : wrap64 a = a :=
  Nat.mod_eq_of_lt h

theorem satAdd64_eq_of_lt {a b : Nat} (h : a + b < U64LIM) : satAdd64 a b = a + b := by
  unfold satAdd64 U64MAX
  unfold U64LIM at h
  omega

theorem satAdd64_pos {a b : Nat} (h : 0 < a + b) : 0 < satAdd64 a b := by
  unfold satAdd64 U64MAX
  omega

/-- A validated order has its amount within the configured bounds. -/
theorem validate_amount_bounds {p : TradeParams} (h : p.validate = true) :
    MIN_TRADE_AMOUNT ≤ p.amount ∧ p.amount ≤ MAX_TRADE_AMOUNT := by
  unfold TradeParams.validate at h
  split at h
  · cases h
  · next hc =>
    push_neg at hc
    exact ⟨hc.1, hc.2⟩

/-- `execute_trade` either leaves the market unchanged with a failed
result, or reports success. -/
theorem execute_trade_cases (m : MockMarket) (p : TradeParams) :
    m.execute_trade p = (m, TradeResult.failed) ∨ (m.execute_trade p).2.success = true := by
  obtain ⟨side, amount, ot, lp, ms⟩ := p
  cases side <;>
  · unfold MockMarket.execute_trade
    dsimp only
    split
    · exact Or.inl rfl
    · split
      · exact Or.inl rfl
      · split
        · exact Or.inl rfl
        · split
          · exact Or.inl rfl
          · exact Or.inr rfl

/-- Under no-overflow side conditions, `calculate_shares_out` computes the
pure constant-product formula. -/
theorem calculate_shares_out_eq (m : MockMarket) (side : TradeSide) (amount : Nat)
    (hout : m.reserve side < U64LIM)
    (hfee : amount * m.fee_bps < U64LIM)
    (hin : m.reserve side.opposite + (amount - amount * m.fee_bps / 10000) < U64LIM)
    (hnz : m.reserve side.opposite + (amount - amount * m.fee_bps / 10000) ≠ 0) :
    m.calculate_shares_out side amount =
      (m.reserve side -
         m.reserve side.opposite * m.reserve side /
           (m.reserve side.opposite + (amount - amount * m.fee_bps / 10000)),
       amount * m.fee_bps / 10000) := by
  have hfee' : wrap64 (amount * m.fee_bps) = amount * m.fee_bps := wrap64_eq_of_lt hfee
  have hdiv : ∀ rin rout : Nat, rout < U64LIM → ∀ nin : Nat, rin ≤ nin →
      rin * rout / nin < U64LIM := by
    intro rin rout hrout nin hle
    rcases Nat.eq_zero_or_pos rin with h0 | hpos
    · subst h0
      simpa using Nat.pos_of_ne_zero (by unfold U64LIM; omega)
    · have h1 : rin * rout / nin ≤ rin * rout / rin :=
        Nat.div_le_div_left hle hpos
      rw [Nat.mul_div_cancel_left _ hpos] at h1
      omega
  cases side <;>
  · simp only [MockMarket.reserve, TradeSide.opposite] at hout hin hnz ⊢
    simp only [MockMarket.calculate_shares_out]
    rw [hfee']
    rw [satAdd64_eq_of_lt hin]
    rw [if_neg hnz]
    rw [wrap64_eq_of_lt (hdiv _ _ hout _ (Nat.le_add_right _ _))]

/-- C5. Whenever `execute_trade` returns a failed outcome — resolved
market, parameter-validation failure, zero computed shares, or a limit
price exceeded — the market state is exactly unchanged from before the
call. -/
theorem C5_failed_trade_leaves_market_unchanged (m : MockMarket) (p : TradeParams)
    (h : (m.execute_trade p).2.success = false) :
    (m.execute_trade p).1 = m := by
  rcases execute_trade_cases m p with hcase | hcase
  · rw [hcase]
  · rw [hcase] at h
    cases h

/-- C5 witness: a market order on a resolved market fails and leaves the
market unchanged. -/
theorem C5_witness :
    ((MockMarket.resolve MockMarket.mkDefault TradeSide.Yes).execute_trade
        (TradeParams.market_order TradeSide.Yes 100000000)).2.success = false ∧
    ((MockMarket.resolve MockMarket.mkDefault TradeSide.Yes).execute_trade
        (TradeParams.market_order TradeSide.Yes 100000000)).1 =
      MockMarket.resolve MockMarket.mkDefault TradeSide.Yes :=
  ⟨by decide,
   C5_failed_trade_leaves_market_unchanged
     (MockMarket.resolve MockMarket.mkDefault TradeSide.Yes)
     (TradeParams.market_order TradeSide.Yes 100000000) (by decide)⟩

/-- C6 counterexample: `resolve` is not write-once. Resolving an
already-resolved market with the other side overwrites `winning_side`,
so "no subsequent operation (including a further call to resolve)
changes winning_side" is false at this input. -/
theorem C6_counterexample :
    ((MockMarket.mkDefault.resolve TradeSide.Yes).is_resolved = true) ∧
    ((MockMarket.mkDefault.resolve TradeSide.Yes).winning_side = TradeSide.Yes) ∧
    (((MockMarket.mkDefault.resolve TradeSide.Yes).resolve TradeSide.No).winning_side ≠
      TradeSide.Yes) := by decide

/-- C6 (amended). Once a market is resolved: no operation returns
`is_resolved` to `false` (`resolve` always sets it `true`, and
`execute_trade` on a resolved market leaves the state — including
`winning_side` — exactly unchanged), and payout equals `shares` when the
side equals the winning side and zero otherwise. A repeated `resolve`,
however, overwrites `winning_side`. -/
theorem C6_amended (m : MockMarket) (w : TradeSide) (p : TradeParams) (s : TradeSide)
    (sh : Nat) (h : m.is_resolved = true) :
    ((m.resolve w).is_resolved = true) ∧
    ((m.execute_trade p).1 = m) ∧
    (m.calculate_payout s sh = if s = m.winning_side then sh else 0) := by
  refine ⟨rfl, ?_, ?_⟩
  · unfold MockMarket.execute_trade
    rw [if_pos h]
  · unfold MockMarket.calculate_payout
    rw [h]
    simp

/-- C6 witness: instantiation of the amended theorem on a concrete
resolved market. -/
theorem C6_witness :
    (((MockMarket.mkDefault.resolve TradeSide.Yes).resolve TradeSide.No).is_resolved = true) ∧
    (((MockMarket.mkDefault.resolve TradeSide.Yes).execute_trade
        (TradeParams.market_order TradeSide.No 2000000)).1 =
      MockMarket.mkDefault.resolve TradeSide.Yes) ∧
    ((MockMarket.mkDefault.resolve TradeSide.Yes).calculate_payout TradeSide.No 100 =
      if TradeSide.No = (MockMarket.mkDefault.resolve TradeSide.Yes).winning_side then 100
      else 0) :=
  C6_amended (MockMarket.mkDefault.resolve TradeSide.Yes) TradeSide.No
    (TradeParams.market_order TradeSide.No 2000000) TradeSide.No 100 (by decide)

/-- C2 counterexample: with reserves `2^63 + 1` and `2^63 + 2` (both
strictly positive) the `u64` sum of the reserves wraps, and the two side
prices no longer sum to `PRICE_SCALE`. -/
theorem C2_counterexample :
    (0 < (9223372036854775809 : Nat)) ∧ (0 < (9223372036854775810 : Nat)) ∧
    (MockMarket.yes_price
        { MockMarket.mkDefault with
            yes_reserve := 9223372036854775809, no_reserve := 9223372036854775810 } +
      MockMarket.no_price
        { MockMarket.mkDefault with
            yes_reserve := 9223372036854775809, no_reserve := 9223372036854775810 } ≠
      PRICE_SCALE) := by decide

/-- C2 (amended). For every reserve pair with both strictly positive
whose sum does not overflow `u64`, the two side prices sum exactly to
`PRICE_SCALE`. -/
theorem C2_amended (m : MockMarket)
    (hy : 0 < m.yes_reserve) (hn : 0 < m.no_reserve)
    (hsum : m.yes_reserve + m.no_reserve < U64LIM) :
    m.yes_price + m.no_price = PRICE_SCALE := by
  have hs : wrap64 (m.yes_reserve + m.no_reserve) = m.yes_reserve + m.no_reserve :=
    wrap64_eq_of_lt hsum
  have hpos : ¬ (m.yes_reserve + m.no_reserve = 0) := by omega
  have hle : m.no_reserve * PRICE_SCALE / (m.yes_reserve + m.no_reserve) ≤ PRICE_SCALE := by
    have h1 : m.no_reserve * PRICE_SCALE ≤ (m.yes_reserve + m.no_reserve) * PRICE_SCALE :=
      Nat.mul_le_mul_right _ (by omega)
    have h2 : m.no_reserve * PRICE_SCALE / (m.yes_reserve + m.no_reserve) ≤
        (m.yes_reserve + m.no_reserve) * PRICE_SCALE / (m.yes_reserve + m.no_reserve) :=
      Nat.div_le_div_right h1
    rwa [Nat.mul_div_cancel_left _ (by omega)] at h2
  have hw : wrap64 (m.no_reserve * PRICE_SCALE / (m.yes_reserve + m.no_reserve)) =
      m.no_reserve * PRICE_SCALE / (m.yes_reserve + m.no_reserve) := by
    apply wrap64_eq_of_lt
    unfold PRICE_SCALE at hle ⊢
    unfold U64LIM
    omega
  unfold MockMarket.no_price MockMarket.yes_price sub64
  rw [hs, if_neg hpos, hw]
  generalize hq : m.no_reserve * PRICE_SCALE / (m.yes_reserve + m.no_reserve) = q
  rw [hq] at hle
  unfold PRICE_SCALE at hle ⊢
  unfold U64LIM
  omega

/-- C2 witness: the amended theorem applied to the default market. -/
theorem C2_witness :
    MockMarket.mkDefault.yes_price + MockMarket.mkDefault.no_price = PRICE_SCALE :=
  C2_amended MockMarket.mkDefault (by decide) (by decide) (by decide)

/-- C3 counterexample: the claim requires the strong variant exactly when
the absolute trend exceeds the threshold *with sign agreeing with the
direction*, yet at the claim's own input `{price:700000, trend:+150000,
volatility:50000}` the signal is `StrongSell` although the positive trend
does not agree with the sell direction — the claimed rule would demand
plain `Sell` there, contradicting the claimed output. -/
theorem C3_counterexample :
    (run_inference { price := 700000, trend := 150000, volatility := 50000 }
        { price_threshold_low := 400000, price_threshold_high := 600000,
          trend_threshold := 100000, volatility_cap := 200000 } =
      TradeSignal.StrongSell) ∧
    ¬ ((150000 : Int) < 0) := by decide

/-- C3 (amended). The modelled signal inference is a pure total function
implementing the decision tree: volatility above the cap forces `Hold`;
otherwise price at or below the low threshold gives the buy class, price
at or above the high threshold (when above the low threshold) gives the
sell class, strictly between gives `Hold`; within a directional class the
signal is the strong variant exactly when the absolute trend exceeds
`trend_threshold` (no sign-agreement requirement). The five vectors of
the claim all hold. -/
theorem C3_amended (i : MarketInput) (c : StrategyParams) :
    (c.volatility_cap < i.volatility → run_inference i c = TradeSignal.Hold) ∧
    (i.volatility ≤ c.volatility_cap → i.price ≤ c.price_threshold_low →
      run_inference i c =
        (if c.trend_threshold < i.trend.natAbs then TradeSignal.StrongBuy
         else TradeSignal.Buy)) ∧
    (i.volatility ≤ c.volatility_cap → c.price_threshold_low < i.price →
      i.price < c.price_threshold_high → run_inference i c = TradeSignal.Hold) ∧
    (i.volatility ≤ c.volatility_cap → c.price_threshold_low < i.price →
      c.price_threshold_high ≤ i.price →
      run_inference i c =
        (if c.trend_threshold < i.trend.natAbs then TradeSignal.StrongSell
         else TradeSignal.Sell)) ∧
    (run_inference { price := 300000, trend := 150000, volatility := 50000 }
        { price_threshold_low := 400000, price_threshold_high := 600000,
          trend_threshold := 100000, volatility_cap := 200000 } = TradeSignal.StrongBuy) ∧
    (run_inference { price := 300000, trend := 50000, volatility := 50000 }
        { price_threshold_low := 400000, price_threshold_high := 600000,
          trend_threshold := 100000, volatility_cap := 200000 } = TradeSignal.Buy) ∧
    (run_inference { price := 500000, trend := 0, volatility := 50000 }
        { price_threshold_low := 400000, price_threshold_high := 600000,
          trend_threshold := 100000, volatility_cap := 200000 } = TradeSignal.Hold) ∧
    (run_inference { price := 700000, trend := 150000, volatility := 50000 }
        { price_threshold_low := 400000, price_threshold_high := 600000,
          trend_threshold := 100000, volatility_cap := 200000 } = TradeSignal.StrongSell) ∧
    (run_inference { price := 300000, trend := 150000, volatility := 300000 }
        { price_threshold_low := 400000, price_threshold_high := 600000,
          trend_threshold := 100000, volatility_cap := 200000 } = TradeSignal.Hold) := by
  refine ⟨?_, ?_, ?_, ?_, by decide, by decide, by decide, by decide, by decide⟩
  · intro hv
    unfold run_inference
    rw [if_pos hv]
  · intro hv hp
    unfold run_inference
    rw [if_neg (by omega), if_pos hp]
  · intro hv hp1 hp2
    unfold run_inference
    rw [if_neg (by omega), if_neg (by omega), if_neg (by omega)]
  · intro hv hp1 hp2
    unfold run_inference
    rw [if_neg (by omega), if_neg (by omega), if_pos hp2]

/-- C3 witness: the amended theorem applied at the first claim vector. -/
theorem C3_witness :
    run_inference { price := 300000, trend := 150000, volatility := 50000 }
        { price_threshold_low := 400000, price_threshold_high := 600000,
          trend_threshold := 100000, volatility_cap := 200000 } =
      (if (100000 : Nat) < (150000 : Int).natAbs then TradeSignal.StrongBuy
       else TradeSignal.Buy) :=
  (C3_amended { price := 300000, trend := 150000, volatility := 50000 }
    { price_threshold_low := 400000, price_threshold_high := 600000,
      trend_threshold := 100000, volatility_cap := 200000 }).2.1 (by decide) (by decide)

/-- The computed share output never exceeds the reserve of the side
being bought. -/
theorem calculate_shares_out_fst_le (m : MockMarket) (side : TradeSide) (amount : Nat) :
    (m.calculate_shares_out side amount).1 ≤ m.reserve side := by
  cases side <;>
  · simp only [MockMarket.calculate_shares_out, MockMarket.reserve]
    split
    · exact Nat.zero_le _
    · exact Nat.sub_le _ _

/-- A positive share output forces a nonzero post-fee input reserve. -/
theorem calculate_shares_out_pos_nin (m : MockMarket) (side : TradeSide) (amount : Nat)
    (h : 0 < (m.calculate_shares_out side amount).1) :
    satAdd64 (m.reserve side.opposite) (amount - wrap64 (amount * m.fee_bps) / 10000) ≠ 0 := by
  intro h0
  cases side <;>
  · simp only [MockMarket.reserve, TradeSide.opposite] at h0
    simp only [MockMarket.calculate_shares_out] at h
    rw [if_pos h0] at h
    simp at h

/-- On the success path with the side conditions of a market order
satisfied, `execute_trade` returns exactly the saturating reserve and
volume updates together with a success result. -/
theorem execute_trade_market_eq (m : MockMarket) (p : TradeParams)
    (hres : m.is_resolved = false)
    (hord : p.order_type = OrderType.Market)
    (hval : p.validate = true)
    (hshares : 0 < (m.calculate_shares_out p.side p.amount).1) :
    m.execute_trade p =
      ({ (match p.side with
          | TradeSide.Yes =>
            { m with
                no_reserve :=
                  satAdd64 m.no_reserve
                    (p.amount - (m.calculate_shares_out p.side p.amount).2),
                yes_reserve := m.yes_reserve - (m.calculate_shares_out p.side p.amount).1 }
          | TradeSide.No =>
            { m with
                yes_reserve :=
                  satAdd64 m.yes_reserve
                    (p.amount - (m.calculate_shares_out p.side p.amount).2),
                no_reserve := m.no_reserve - (m.calculate_shares_out p.side p.amount).1 }) with
          total_volume := satAdd64 m.total_volume p.amount },
       TradeResult.mkSuccess p.amount (m.calculate_shares_out p.side p.amount).1
         (wrap64 (p.amount * PRICE_SCALE / (m.calculate_shares_out p.side p.amount).1))
         (m.calculate_shares_out p.side p.amount).2) := by
  obtain ⟨side, amount, ot, lp, ms⟩ := p
  dsimp only at hord hshares ⊢
  subst hord
  cases side <;>
  · unfold MockMarket.execute_trade
    dsimp only
    split
    · next h => rw [hres] at h; exact Bool.noConfusion h
    · split
      · next h => rw [hval] at h; exact Bool.noConfusion h
      · split
        · next h => omega
        · split
          · next h => exact OrderType.noConfusion h.1
          · rfl

/-- C1 counterexample: on a market whose cumulative volume already sits
at `u64::MAX`, a perfectly ordinary successful market order leaves
`total_volume` clamped by `saturating_add` instead of increasing it by
the full pre-fee amount, so the claim's volume clause fails. -/
theorem C1_counterexample :
    ((MockMarket.execute_trade { MockMarket.mkDefault with total_volume := U64MAX }
        (TradeParams.market_order TradeSide.Yes 100000000)).2.success = true) ∧
    ((MockMarket.execute_trade { MockMarket.mkDefault with total_volume := U64MAX }
        (TradeParams.market_order TradeSide.Yes 100000000)).1.total_volume ≠
      U64MAX + 100000000) := by decide

/-- C1 (amended). For every valid market order on an unresolved `u64`-range
market with positive computed share output, provided `fee_bps ≤ 10000` and
neither the paid-in-reserve update nor the volume update saturates:
the trade succeeds, `fees_paid = amount * fee_bps / 10000`,
`shares_received = reserve_out − reserve_in * reserve_out / (reserve_in +
(amount − fee))`, the paid-in reserve increases by `amount − fee`, the
bought reserve decreases by `shares_received`, and `total_volume`
increases by the full pre-fee amount. -/
theorem C1_amended (m : MockMarket) (p : TradeParams)
    (hyr : m.yes_reserve < U64LIM) (hnr : m.no_reserve < U64LIM)
    (hres : m.is_resolved = false)
    (hord : p.order_type = OrderType.Market)
    (hval : p.validate = true)
    (hfb : m.fee_bps ≤ 10000)
    (hin : m.reserve p.side.opposite + (p.amount - p.amount * m.fee_bps / 10000) < U64LIM)
    (hvol : m.total_volume + p.amount < U64LIM)
    (hshares : 0 < (m.calculate_shares_out p.side p.amount).1) :
    ((m.execute_trade p).2.success = true) ∧
    ((m.execute_trade p).2.fees_paid = p.amount * m.fee_bps / 10000) ∧
    ((m.execute_trade p).2.shares_received =
      m.reserve p.side -
        m.reserve p.side.opposite * m.reserve p.side /
          (m.reserve p.side.opposite + (p.amount - p.amount * m.fee_bps / 10000))) ∧
    ((m.execute_trade p).1.reserve p.side.opposite =
      m.reserve p.side.opposite + (p.amount - p.amount * m.fee_bps / 10000)) ∧
    ((m.execute_trade p).1.reserve p.side =
      m.reserve p.side - (m.execute_trade p).2.shares_received) ∧
    ((m.execute_trade p).1.total_volume = m.total_volume + p.amount) := by
  have hbounds := validate_amount_bounds hval
  have hfee : p.amount * m.fee_bps < U64LIM := by
    have h1 : p.amount * m.fee_bps ≤ MAX_TRADE_AMOUNT * 10000 :=
      Nat.mul_le_mul hbounds.2 hfb
    unfold MAX_TRADE_AMOUNT at h1
    unfold U64LIM
    omega
  have hnin := calculate_shares_out_pos_nin m p.side p.amount hshares
  rw [wrap64_eq_of_lt hfee] at hnin
  have hnz : m.reserve p.side.opposite + (p.amount - p.amount * m.fee_bps / 10000) ≠ 0 := by
    intro h0
    apply hnin
    unfold satAdd64
    omega
  have hout : m.reserve p.side < U64LIM := by
    cases hs : p.side <;> simp only [MockMarket.reserve] <;> assumption
  have hcs := calculate_shares_out_eq m p.side p.amount hout hfee hin hnz
  have hmain := execute_trade_market_eq m p hres hord hval hshares
  rw [hmain, hcs]
  obtain ⟨side, amount, ot, lp, ms⟩ := p
  dsimp only at hin hnz ⊢
  cases side <;>
    exact ⟨rfl, rfl, rfl, satAdd64_eq_of_lt hin, rfl, satAdd64_eq_of_lt hvol⟩

/-- C1 witness: the default market, a YES market order of `100000000`
lamports with `fee_bps = 30`; the fee is exactly `300000`. -/
theorem C1_witness :
    ((MockMarket.execute_trade MockMarket.mkDefault
        (TradeParams.market_order TradeSide.Yes 100000000)).2.success = true) ∧
    ((MockMarket.execute_trade MockMarket.mkDefault
        (TradeParams.market_order TradeSide.Yes 100000000)).2.fees_paid =
      100000000 * MockMarket.mkDefault.fee_bps / 10000) ∧
    ((MockMarket.execute_trade MockMarket.mkDefault
        (TradeParams.market_order TradeSide.Yes 100000000)).2.shares_received =
      MockMarket.mkDefault.reserve TradeSide.Yes -
        MockMarket.mkDefault.reserve TradeSide.Yes.opposite *
            MockMarket.mkDefault.reserve TradeSide.Yes /
          (MockMarket.mkDefault.reserve TradeSide.Yes.opposite +
            (100000000 - 100000000 * MockMarket.mkDefault.fee_bps / 10000))) ∧
    ((MockMarket.execute_trade MockMarket.mkDefault
        (TradeParams.market_order TradeSide.Yes 100000000)).1.reserve TradeSide.Yes.opposite =
      MockMarket.mkDefault.reserve TradeSide.Yes.opposite +
        (100000000 - 100000000 * MockMarket.mkDefault.fee_bps / 10000)) ∧
    ((MockMarket.execute_trade MockMarket.mkDefault
        (TradeParams.market_order TradeSide.Yes 100000000)).1.reserve TradeSide.Yes =
      MockMarket.mkDefault.reserve TradeSide.Yes -
        (MockMarket.execute_trade MockMarket.mkDefault
          (TradeParams.market_order TradeSide.Yes 100000000)).2.shares_received) ∧
    ((MockMarket.execute_trade MockMarket.mkDefault
        (TradeParams.market_order TradeSide.Yes 100000000)).1.total_volume =
      MockMarket.mkDefault.total_volume + 100000000) :=
  C1_amended MockMarket.mkDefault (TradeParams.market_order TradeSide.Yes 100000000)
    (by decide) (by decide) (by decide) (by decide) (by decide) (by decide)
    (by decide) (by decide) (by decide)

/-- C9 counterexample: on a (degenerate but reachable-by-construction)
market with one-token reserves, a valid minimum-size market order
succeeds and drains the bought reserve to exactly zero, so "post-trade
reserves remain strictly positive" fails. -/
theorem C9_counterexample :
    ((MockMarket.execute_trade { MockMarket.mkDefault with yes_reserve := 1, no_reserve := 1 }
        (TradeParams.market_order TradeSide.Yes 1000000)).2.success = true) ∧
    ((MockMarket.execute_trade { MockMarket.mkDefault with yes_reserve := 1, no_reserve := 1 }
        (TradeParams.market_order TradeSide.Yes 1000000)).1.yes_reserve = 0) := by decide

/-- The fee component of `calculate_shares_out` does not depend on the
branch taken. -/
theorem calculate_shares_out_snd (m : MockMarket) (side : TradeSide) (amount : Nat) :
    (m.calculate_shares_out side amount).2 = wrap64 (amount * m.fee_bps) / 10000 := by
  cases side <;>
  · simp only [MockMarket.calculate_shares_out]
    split <;> rfl

/-- Arithmetic core of the bought-reserve positivity argument. -/
theorem keeps_pos_aux (rin rout nin : Nat) (hout : rout < U64LIM)
    (hnin : nin ≠ 0) (hge : rin ≤ nin) (hk : nin ≤ rin * rout) :
    0 < rout - (rout - wrap64 (rin * rout / nin)) := by
  have hrpos : 0 < rin := by
    rcases Nat.eq_zero_or_pos rin with h0 | h
    · subst h0
      simp only [Nat.zero_mul, Nat.le_zero] at hk
      omega
    · exact h
  have hq1 : 1 ≤ rin * rout / nin := (Nat.one_le_div_iff (Nat.pos_of_ne_zero hnin)).2 hk
  have hqle : rin * rout / nin ≤ rout := by
    have h1 : rin * rout / nin ≤ rin * rout / rin := Nat.div_le_div_left hge hrpos
    rwa [Nat.mul_div_cancel_left _ hrpos] at h1
  rw [wrap64_eq_of_lt (by unfold U64LIM at *; omega)]
  omega

/-- When the post-fee input reserve does not exceed the constant product,
a positive share output leaves the bought reserve strictly positive. -/
theorem calculate_shares_out_keeps_out_pos (m : MockMarket) (side : TradeSide) (amount : Nat)
    (hout : m.reserve side < U64LIM)
    (hrin : m.reserve side.opposite < U64LIM)
    (hshares : 0 < (m.calculate_shares_out side amount).1)
    (hk : satAdd64 (m.reserve side.opposite) (amount - wrap64 (amount * m.fee_bps) / 10000) ≤
        m.reserve side.opposite * m.reserve side) :
    0 < m.reserve side - (m.calculate_shares_out side amount).1 := by
  have hnin := calculate_shares_out_pos_nin m side amount hshares
  have hge : m.reserve side.opposite ≤
      satAdd64 (m.reserve side.opposite) (amount - wrap64 (amount * m.fee_bps) / 10000) := by
    unfold satAdd64 U64MAX
    unfold U64LIM at hrin
    omega
  have key := keeps_pos_aux (m.reserve side.opposite) (m.reserve side)
      (satAdd64 (m.reserve side.opposite) (amount - wrap64 (amount * m.fee_bps) / 10000))
      hout hnin hge hk
  cases side <;>
  · simp only [MockMarket.reserve, TradeSide.opposite] at hnin key ⊢
    simp only [MockMarket.calculate_shares_out]
    rw [if_neg hnin]
    exact key

/-- C9 (amended). For every valid market order on an unresolved
`u64`-range market with positive computed share output: the trade
succeeds, the shares received never exceed the pre-trade reserve of the
side being bought, the post-trade paid-in reserve is strictly positive,
and — provided the post-fee input reserve does not exceed the constant
product `reserve_in * reserve_out` — the post-trade bought reserve is
strictly positive as well. -/
theorem C9_amended (m : MockMarket) (p : TradeParams)
    (hyr : m.yes_reserve < U64LIM) (hnr : m.no_reserve < U64LIM)
    (hres : m.is_resolved = false) (hord : p.order_type = OrderType.Market)
    (hval : p.validate = true)
    (hshares : 0 < (m.calculate_shares_out p.side p.amount).1) :
    ((m.execute_trade p).2.success = true) ∧
    ((m.execute_trade p).2.shares_received ≤ m.reserve p.side) ∧
    (0 < (m.execute_trade p).1.reserve p.side.opposite) ∧
    (satAdd64 (m.reserve p.side.opposite) (p.amount - wrap64 (p.amount * m.fee_bps) / 10000) ≤
        m.reserve p.side.opposite * m.reserve p.side →
      0 < (m.execute_trade p).1.reserve p.side) := by
  have hout : m.reserve p.side < U64LIM := by
    cases hs : p.side <;> simp only [MockMarket.reserve] <;> assumption
  have hrin : m.reserve p.side.opposite < U64LIM := by
    cases hs : p.side <;> simp only [TradeSide.opposite, MockMarket.reserve] <;> assumption
  have hfle := calculate_shares_out_fst_le m p.side p.amount
  have hnin := calculate_shares_out_pos_nin m p.side p.amount hshares
  have hmain := execute_trade_market_eq m p hres hord hval hshares
  rw [hmain]
  obtain ⟨side, amount, ot, lp, ms⟩ := p
  dsimp only at hout hrin hfle hnin hshares ⊢
  have csnd := calculate_shares_out_snd m side amount
  cases side <;>
  · refine ⟨rfl, hfle, ?_, ?_⟩
    · simp only [TradeSide.opposite, MockMarket.reserve, csnd]
      exact Nat.pos_of_ne_zero
        (by simpa only [TradeSide.opposite, MockMarket.reserve] using hnin)
    · intro hk
      have hpos := calculate_shares_out_keeps_out_pos m _ amount hout hrin hshares hk
      simpa only [TradeSide.opposite, MockMarket.reserve, csnd] using hpos

/-- C9 witness: the amended theorem on the default market for a YES
market order of `100000000` lamports. -/
theorem C9_witness :
    ((MockMarket.execute_trade MockMarket.mkDefault
        (TradeParams.market_order TradeSide.Yes 100000000)).2.success = true) ∧
    ((MockMarket.execute_trade MockMarket.mkDefault
        (TradeParams.market_order TradeSide.Yes 100000000)).2.shares_received ≤
      MockMarket.mkDefault.reserve TradeSide.Yes) ∧
    (0 < (MockMarket.execute_trade MockMarket.mkDefault
        (TradeParams.market_order TradeSide.Yes 100000000)).1.reserve TradeSide.Yes.opposite) ∧
    (satAdd64 (MockMarket.mkDefault.reserve TradeSide.Yes.opposite)
        (100000000 - wrap64 (100000000 * MockMarket.mkDefault.fee_bps) / 10000) ≤
        MockMarket.mkDefault.reserve TradeSide.Yes.opposite *
          MockMarket.mkDefault.reserve TradeSide.Yes →
      0 < (MockMarket.execute_trade MockMarket.mkDefault
        (TradeParams.market_order TradeSide.Yes 100000000)).1.reserve TradeSide.Yes) :=
  C9_amended MockMarket.mkDefault (TradeParams.market_order TradeSide.Yes 100000000)
    (by decide) (by decide) (by decide) (by decide) (by decide) (by decide)

/-- An `i64` saturating subtraction of two small non-negative `u64`
values is exact. -/
theorem satSubI64_small {a b : Nat} (ha : a < 9223372036854775808)
    (hb : b < 9223372036854775808) :
    satSubI64 (u64AsI64 a) (u64AsI64 b) = (a : Int) - (b : Int) := by
  unfold satSubI64 u64AsI64 I64MAXi I64MINi
  rw [if_pos ha, if_pos hb]
  omega

/-- C4 counterexample: closing an open position with `shares = 10^19` at
`exit_price = 10^7` makes `shares * exit_price / S = 10^20` overflow the
`as u64` cast, so the returned `realized_pnl` is the truncated
`7766279631452241919` rather than the claimed `exit_value −
invested_amount = 10^20 − 1`. -/
theorem C4_counterexample :
    ((close_position_ix exampleVault overflowPosition 10000000 0 0).toOption.map
        (fun r => r.2.2) = some 7766279631452241919) ∧
    ((7766279631452241919 : Int) ≠
      ((10000000000000000000 * 10000000 / PRICE_SCALE : Nat) : Int) - 1) := by decide

/-- C4 (amended). Closing an open position at a positive exit price
whose exact exit value `shares * exit_price / S` fits in `i64` (and with
the invested amount in `i64` range, the balance credit not saturating,
and at least one active position) computes
`realized_pnl = exit_value − invested_amount`, credits
`available_balance` by `exit_value`, decrements `active_positions` by
one, and marks the position Closed; closing a non-open position is
rejected with `PositionAlreadyClosed`. -/
theorem C4_amended :
    (∀ (v : SpectreVault) (p : Position) (exit_price : Nat) (now : Int) (slot : Nat),
      p.status = PositionStatus.Open → 0 < exit_price →
      p.shares * exit_price / PRICE_SCALE < 9223372036854775808 →
      p.invested_amount < 9223372036854775808 →
      v.available_balance + p.shares * exit_price / PRICE_SCALE < U64LIM →
      0 < v.active_positions →
      close_position_ix v p exit_price now slot =
        Except.ok
          ({ v with
              available_balance := v.available_balance + p.shares * exit_price / PRICE_SCALE,
              active_positions := v.active_positions - 1,
              last_trade_slot := slot },
           { p with
              status := PositionStatus.Closed, closed_at := now, exit_price := exit_price,
              realized_pnl :=
                ((p.shares * exit_price / PRICE_SCALE : Nat) : Int) - (p.invested_amount : Int) },
           ((p.shares * exit_price / PRICE_SCALE : Nat) : Int) - (p.invested_amount : Int))) ∧
    (∀ (v : SpectreVault) (p : Position) (exit_price : Nat) (now : Int) (slot : Nat),
      p.status ≠ PositionStatus.Open →
      close_position_ix v p exit_price now slot =
        Except.error SpectreError.PositionAlreadyClosed) := by
  constructor
  · intro v p exit_price now slot hopen hep hfit hinv hbal hap
    simp only [close_position_ix]
    rw [if_neg (not_not_intro hopen), if_neg (by omega)]
    have hev : wrap64 (p.shares * exit_price / PRICE_SCALE) =
        p.shares * exit_price / PRICE_SCALE := by
      apply wrap64_eq_of_lt
      unfold U64LIM
      omega
    rw [hev, satSubI64_small hfit hinv, satAdd64_eq_of_lt hbal]
  · intro v p exit_price now slot hnot
    simp only [close_position_ix]
    rw [if_pos hnot]

/-- C4 witness: the specification's worked example — closing
`examplePosition` at `700000` yields `realized_pnl = 20000000`, at
`300000` yields `-20000000`; closing an already-closed position is
rejected. -/
theorem C4_witness :
    (close_position_ix exampleVault examplePosition 700000 5 9 =
      Except.ok
        ({ exampleVault with
            available_balance := 70000000
            active_positions := 0
            last_trade_slot := 9 },
         { examplePosition with
            status := PositionStatus.Closed
            closed_at := 5
            exit_price := 700000
            realized_pnl := 20000000 },
         20000000)) ∧
    (close_position_ix exampleVault examplePosition 300000 5 9 =
      Except.ok
        ({ exampleVault with
            available_balance := 30000000
            active_positions := 0
            last_trade_slot := 9 },
         { examplePosition with
            status := PositionStatus.Closed
            closed_at := 5
            exit_price := 300000
            realized_pnl := -20000000 },
         -20000000)) ∧
    (close_position_ix exampleVault { examplePosition with status := PositionStatus.Closed }
        700000 5 9 = Except.error SpectreError.PositionAlreadyClosed) :=
  ⟨C4_amended.1 exampleVault examplePosition 700000 5 9 (by decide) (by decide) (by decide)
      (by decide) (by decide) (by decide),
   C4_amended.1 exampleVault examplePosition 300000 5 9 (by decide) (by decide) (by decide)
      (by decide) (by decide) (by decide),
   C4_amended.2 exampleVault { examplePosition with status := PositionStatus.Closed }
      700000 5 9 (by decide)⟩

/-- C8 counterexample: closing a position into a vault whose
`available_balance` is already `u64::MAX` silently clamps the balance at
`u64::MAX` via `saturating_add` and reports no overflow error, so the
claim that every available-balance update is checked fails on the
trading path. -/
theorem C8_counterexample :
    ((close_position_ix { exampleVault with available_balance := U64MAX } examplePosition
        700000 0 0).toOption.map (fun r => r.1.available_balance) = some U64MAX) ∧
    ((close_position_ix { exampleVault with available_balance := U64MAX } examplePosition
        700000 0 0).toOption ≠ none) := by decide

/-- C8 (amended). The deposit-path ledger updates of `fund_agent` use
checked arithmetic: the instruction aborts with `MathOverflow` exactly
when one of the three additions would overflow `u64`, and otherwise
applies all three additions exactly. The trading-path update of
`close_position`, by contrast, credits `available_balance` with
`saturating_add`, clamping instead of reporting an error. -/
theorem C8_amended :
    (∀ (v : SpectreVault) (amount : Nat),
      U64LIM ≤ v.total_deposited + amount ∨ U64LIM ≤ v.available_balance + amount ∨
        U64LIM ≤ v.total_deposits_count + 1 →
      fund_agent_update v amount = Except.error SpectreError.MathOverflow) ∧
    (∀ (v : SpectreVault) (amount : Nat),
      v.total_deposited + amount < U64LIM → v.available_balance + amount < U64LIM →
      v.total_deposits_count + 1 < U64LIM →
      fund_agent_update v amount =
        Except.ok
          { v with
              total_deposited := v.total_deposited + amount
              available_balance := v.available_balance + amount
              total_deposits_count := v.total_deposits_count + 1 }) ∧
    (∀ (v : SpectreVault) (p : Position) (exit_price : Nat) (now : Int) (slot : Nat),
      p.status = PositionStatus.Open → 0 < exit_price →
      ∃ v1 p1 pnl, close_position_ix v p exit_price now slot = Except.ok (v1, p1, pnl) ∧
        v1.available_balance =
          satAdd64 v.available_balance (wrap64 (p.shares * exit_price / PRICE_SCALE))) := by
  refine ⟨?_, ?_, ?_⟩
  · intro v amount hover
    by_cases h1 : v.total_deposited + amount ≤ U64MAX
    · by_cases h2 : v.available_balance + amount ≤ U64MAX
      · by_cases h3 : v.total_deposits_count + 1 ≤ U64MAX
        · exfalso
          unfold U64LIM at hover
          unfold U64MAX at h1 h2 h3
          omega
        · simp only [fund_agent_update, checkedAdd64, if_pos h1, if_pos h2, if_neg h3]
      · simp only [fund_agent_update, checkedAdd64, if_pos h1, if_neg h2]
    · simp only [fund_agent_update, checkedAdd64, if_neg h1]
  · intro v amount h1 h2 h3
    have g1 : v.total_deposited + amount ≤ U64MAX := by
      unfold U64MAX
      unfold U64LIM at h1
      omega
    have g2 : v.available_balance + amount ≤ U64MAX := by
      unfold U64MAX
      unfold U64LIM at h2
      omega
    have g3 : v.total_deposits_count + 1 ≤ U64MAX := by
      unfold U64MAX
      unfold U64LIM at h3
      omega
    simp only [fund_agent_update, checkedAdd64, if_pos g1, if_pos g2, if_pos g3]
  · intro v p exit_price now slot hopen hep
    refine
      ⟨{ v with
          available_balance :=
            satAdd64 v.available_balance (wrap64 (p.shares * exit_price / PRICE_SCALE))
          active_positions := v.active_positions - 1
          last_trade_slot := slot },
       { p with
          status := PositionStatus.Closed
          closed_at := now
          exit_price := exit_price
          realized_pnl :=
            satSubI64 (u64AsI64 (wrap64 (p.shares * exit_price / PRICE_SCALE)))
              (u64AsI64 p.invested_amount) },
       satSubI64 (u64AsI64 (wrap64 (p.shares * exit_price / PRICE_SCALE)))
         (u64AsI64 p.invested_amount), ?_, rfl⟩
    simp only [close_position_ix]
    rw [if_neg (not_not_intro hopen), if_neg (by omega)]

/-- C8 witness: the three behaviours at concrete inputs — `fund_agent`
aborting on an overflowing deposit, `fund_agent` applying an ordinary
deposit exactly, and `close_position` crediting by `saturating_add`. -/
theorem C8_witness :
    (fund_agent_update { exampleVault with total_deposited := U64MAX } 1 =
      Except.error SpectreError.MathOverflow) ∧
    (fund_agent_update exampleVault 5 =
      Except.ok
        { exampleVault with
            total_deposited := exampleVault.total_deposited + 5
            available_balance := exampleVault.available_balance + 5
            total_deposits_count := exampleVault.total_deposits_count + 1 }) ∧
    (∃ v1 p1 pnl,
      close_position_ix { exampleVault with available_balance := U64MAX } examplePosition
          700000 0 0 = Except.ok (v1, p1, pnl) ∧
        v1.available_balance =
          satAdd64 U64MAX (wrap64 (examplePosition.shares * 700000 / PRICE_SCALE))) :=
  ⟨C8_amended.1 { exampleVault with total_deposited := U64MAX } 1 (by decide),
   C8_amended.2.1 exampleVault 5 (by decide) (by decide) (by decide),
   C8_amended.2.2 { exampleVault with available_balance := U64MAX } examplePosition
     700000 0 0 (by decide) (by decide)⟩

/-- C7 counterexample: an active vault holding only `100` lamports gets
a Buy signal; the sized order (`100 / 20 = 5`) is below
`MIN_TRADE_AMOUNT`, and `execute_trade` aborts with the
`InsufficientVaultBalance` error instead of returning a no-op outcome. -/
theorem C7_counterexample :
    execute_trade_ix { exampleVault with available_balance := 100 } exampleConfig
        { price := 300000, trend := 50000, volatility := 50000 } 0 0 =
      Except.error SpectreError.InsufficientVaultBalance := by decide

/-- C7 (amended). The orchestrator sizes an actionable order at
`available_balance / 20` for a plain signal and double that for a strong
signal; whenever the sized amount is below the market's minimum order
size, `execute_trade` aborts with an `InsufficientVaultBalance` error
(the whole instruction fails; it does not return a no-op outcome). -/
theorem C7_amended :
    (∀ v : SpectreVault, v.available_balance < U64LIM →
      v.calculate_position_size false = v.available_balance / 20 ∧
      v.calculate_position_size true = 2 * (v.available_balance / 20)) ∧
    (∀ (v : SpectreVault) (c : StrategyConfig) (input : MarketInput) (now : Int) (slot : Nat),
      v.is_active = true → 0 < v.available_balance →
      ((run_inference input
          { price_threshold_low := c.price_threshold_low,
            price_threshold_high := c.price_threshold_high,
            trend_threshold := c.trend_threshold,
            volatility_cap := c.volatility_cap }).is_buy ||
        (run_inference input
          { price_threshold_low := c.price_threshold_low,
            price_threshold_high := c.price_threshold_high,
            trend_threshold := c.trend_threshold,
            volatility_cap := c.volatility_cap }).is_sell) = true →
      v.calculate_position_size
          (run_inference input
            { price_threshold_low := c.price_threshold_low,
              price_threshold_high := c.price_threshold_high,
              trend_threshold := c.trend_threshold,
              volatility_cap := c.volatility_cap }).is_strong < MIN_TRADE_AMOUNT →
      execute_trade_ix v c input now slot =
        Except.error SpectreError.InsufficientVaultBalance) := by
  constructor
  · intro v hv
    constructor
    · rfl
    · show satMul64 (v.available_balance / 20) 2 = 2 * (v.available_balance / 20)
      unfold satMul64 U64MAX
      unfold U64LIM at hv
      omega
  · intro v c input now slot hact hbal hsig hsize
    simp only [execute_trade_ix]
    rw [if_neg (by simp [hact]), if_neg (by omega), if_neg (by simp [hsig]),
      if_pos hsize]

/-- C7 witness: sizing on the example vault (`available_balance =
50000000 / 20 = 2500000` plain, `5000000` strong), and the instantiated
below-minimum error path. -/
theorem C7_witness :
    (({ exampleVault with available_balance := 50000000 } :
        SpectreVault).calculate_position_size false =
      ({ exampleVault with available_balance := 50000000 } :
        SpectreVault).available_balance / 20 ∧
     ({ exampleVault with available_balance := 50000000 } :
        SpectreVault).calculate_position_size true =
      2 * (({ exampleVault with available_balance := 50000000 } :
        SpectreVault).available_balance / 20)) ∧
    (execute_trade_ix { exampleVault with available_balance := 100 } exampleConfig
        { price := 300000, trend := 50000, volatility := 50000 } 3 4 =
      Except.error SpectreError.InsufficientVaultBalance) :=
  ⟨C7_amended.1 { exampleVault with available_balance := 50000000 } (by decide),
   C7_amended.2 { exampleVault with available_balance := 100 } exampleConfig
     { price := 300000, trend := 50000, volatility := 50000 } 3 4
     (by decide) (by decide) (by decide) (by decide)⟩

/-- C10. On every trade cycle over an active vault with positive
available balance that completes: the strategy counters (`last_signal`,
`last_signal_at`, `total_signals`) are updated unconditionally — even
when the signal is Hold — and whenever the returned outcome is not a
success (Hold, or failed market execution such as zero shares) the vault
is exactly unchanged; in particular a Hold signal yields the no-trade
outcome with only the counters mutated. -/
theorem C10_counters_and_frame (v : SpectreVault) (c : StrategyConfig) (input : MarketInput)
    (now : Int) (slot : Nat) (hact : v.is_active = true) (hbal : 0 < v.available_balance) :
    (∀ v1 c1 r, execute_trade_ix v c input now slot = Except.ok (v1, c1, r) →
      c1.last_signal =
        signalCode (run_inference input
          { price_threshold_low := c.price_threshold_low,
            price_threshold_high := c.price_threshold_high,
            trend_threshold := c.trend_threshold,
            volatility_cap := c.volatility_cap }) ∧
      c1.last_signal_at = now ∧
      c1.total_signals = satAdd64 c.total_signals 1 ∧
      (r.success = false → v1 = v)) ∧
    (run_inference input
        { price_threshold_low := c.price_threshold_low,
          price_threshold_high := c.price_threshold_high,
          trend_threshold := c.trend_threshold,
          volatility_cap := c.volatility_cap } = TradeSignal.Hold →
      execute_trade_ix v c input now slot =
        Except.ok
          (v,
           { c with
              last_signal := 3
              last_signal_at := now
              total_signals := satAdd64 c.total_signals 1 },
           TradeResult.failed)) := by
  constructor
  · intro v1 c1 r h
    simp only [execute_trade_ix] at h
    rw [if_neg (by simp [hact]), if_neg (by omega)] at h
    set signal := run_inference input
      { price_threshold_low := c.price_threshold_low,
        price_threshold_high := c.price_threshold_high,
        trend_threshold := c.trend_threshold,
        volatility_cap := c.volatility_cap } with hsig
    by_cases hst : (signal.is_buy || signal.is_sell) = false
    · rw [if_pos hst] at h
      simp only [Except.ok.injEq, Prod.mk.injEq] at h
      obtain ⟨hv, hc, hr⟩ := h
      subst hv
      subst hc
      subst hr
      exact ⟨rfl, rfl, rfl, fun _ => rfl⟩
    · rw [if_neg hst] at h
      by_cases hsz : v.calculate_position_size signal.is_strong < MIN_TRADE_AMOUNT
      · rw [if_pos hsz] at h
        exact Except.noConfusion h
      · rw [if_neg hsz] at h
        by_cases hsucc :
            (MockMarket.mkDefault.execute_trade
              (TradeParams.market_order
                (if signal.is_buy = true then TradeSide.Yes else TradeSide.No)
                (v.calculate_position_size signal.is_strong))).2.success = true
        · rw [if_pos hsucc] at h
          simp only [Except.ok.injEq, Prod.mk.injEq] at h
          obtain ⟨hv, hc, hr⟩ := h
          subst hv
          subst hc
          subst hr
          refine ⟨rfl, rfl, rfl, fun hfail => ?_⟩
          rw [hsucc] at hfail
          exact Bool.noConfusion hfail
        · rw [if_neg hsucc] at h
          simp only [Except.ok.injEq, Prod.mk.injEq] at h
          obtain ⟨hv, hc, hr⟩ := h
          subst hv
          subst hc
          subst hr
          exact ⟨rfl, rfl, rfl, fun _ => rfl⟩
  · intro hhold
    simp only [execute_trade_ix]
    rw [if_neg (by simp [hact]), if_neg (by omega), hhold]
    rfl

/-- C10 witness: a Hold cycle at the specification's mid-range vector
mutates exactly the counters. -/
theorem C10_witness :
    execute_trade_ix { exampleVault with available_balance := 50000000 } exampleConfig
        { price := 500000, trend := 0, volatility := 50000 } 7 11 =
      Except.ok
        ({ exampleVault with available_balance := 50000000 },
         { exampleConfig with
            last_signal := 3
            last_signal_at := 7
            total_signals := satAdd64 exampleConfig.total_signals 1 },
         TradeResult.failed) :=
  (C10_counters_and_frame { exampleVault with available_balance := 50000000 } exampleConfig
    { price := 500000, trend := 0, volatility := 50000 } 7 11 (by decide) (by decide)).2
    (by decide)
